import Mathlib

/-!
Shallow embedding of `src/minibook.py` (booklet imposition on PDF pages).

Geometry is modelled over `ℚ`.  pypdf's `Transformation` holds a current
transformation matrix `(a, b, c, d, e, f)` acting on row vectors:
a point `(x, y)` maps to `(a*x + c*y + e, b*x + d*y + f)`, and the fluent
methods `scale`, `translate`, `rotate` each post-compose a new operation
onto the current matrix.  A rotation by 180 degrees is modelled by its
exact matrix `(-1, 0, 0, -1, 0, 0)` (the mathematical value of
cos 180° and sin 180°).

A pypdf `PageObject` is modelled by `Page`: either a reference to a source
page of the input document (`Page.source i` for 0-based page index `i`), or
a canvas created by `PageObject.create_blank_page` carrying its width,
height and the ordered list of contents merged onto it, each with the
transformation under which it was merged.  `merge_transformed_page`
appends to the canvas's content list and does not touch the merged-in
page; `add_transformation` rewrites the page in place, post-composing the
given matrix onto everything already drawn on it (this is the mutating
pypdf call used on the bottom spread in phase 2).
-/

structure Transform where
  a : ℚ
  b : ℚ
  c : ℚ
  d : ℚ
  e : ℚ
  f : ℚ
deriving DecidableEq

/-- Apply `t` first, then `u` (row-vector matrix product `Mt * Mu`). -/
def Transform.comp (t u : Transform) : Transform :=
  ⟨t.a * u.a + t.b * u.c, t.a * u.b + t.b * u.d,
   t.c * u.a + t.d * u.c, t.c * u.b + t.d * u.d,
   t.e * u.a + t.f * u.c + u.e, t.e * u.b + t.f * u.d + u.f⟩

/-- Fresh `Transformation()`: the identity matrix. -/
def Transform.id : Transform := ⟨1, 0, 0, 1, 0, 0⟩

/-- Fluent `.scale(sx, sy)`: post-compose a scaling. -/
def Transform.scale (t : Transform) (sx sy : ℚ) : Transform :=
  t.comp ⟨sx, 0, 0, sy, 0, 0⟩

/-- Fluent `.translate(tx, ty)`: post-compose a translation. -/
def Transform.translate (t : Transform) (tx ty : ℚ) : Transform :=
  t.comp ⟨1, 0, 0, 1, tx, ty⟩

/-- Fluent `.rotate(180)`: post-compose the exact 180-degree rotation matrix. -/
def Transform.rotate180 (t : Transform) : Transform :=
  t.comp ⟨-1, 0, 0, -1, 0, 0⟩

/-- A pypdf page: a source page of the input document (identified by its
0-based index) or a canvas with its dimensions and merged contents. -/
inductive Page where
  | source (idx : ℕ)
  | canvas (width height : ℚ) (content : List (Page × Transform))

instance : Inhabited Page := ⟨Page.source 0⟩

/-- The content list of a page (a source page reference has none). -/
def Page.content : Page → List (Page × Transform)
  | .source _ => []
  | .canvas _ _ c => c

/-- Model of `PageObject.create_blank_page(width, height)`. -/
def create_blank_page (width height : ℚ) : Page :=
  Page.canvas width height []

/-- Model of `canvas.merge_transformed_page(p, t)`: draw `p` under `t` on top of the
canvas's existing content.  Non-destructive for `p`. -/
def merge_transformed_page (canvas p : Page) (t : Transform) : Page :=
  match canvas with
  | .source i => .source i
  | .canvas w h content => .canvas w h (content ++ [(p, t)])

/-- Model of `canvas.merge_page(p)`: merge under the identity transformation. -/
def merge_page (canvas p : Page) : Page :=
  merge_transformed_page canvas p Transform.id

/-- Model of `p.add_transformation(t)`: destructively post-compose `t` onto
everything already drawn on `p`. -/
def add_transformation (p : Page) (t : Transform) : Page :=
  match p with
  | .source i => .source i
  | .canvas w h content => .canvas w h (content.map fun pt => (pt.1, pt.2.comp t))

/-- Model of `pad_pages` (src/minibook.py lines 42-66): if the page count is already
a multiple of 8 return the pages unchanged, otherwise append blank pages of
size `(final_width, final_height)` up to the next multiple of 8.
Python's `ceil(nump / 8)` is the exact ceiling `(nump + 7) / 8` on `ℕ`. -/
def pad_pages (pages : List Page) (final_width final_height : ℚ) : List Page :=
  let nump := pages.length
  if nump % 8 = 0 then pages
  else
    let target_nump := 8 * ((nump + 7) / 8)
    let padding_needed := target_nump - nump
    pages ++ List.replicate padding_needed (create_blank_page final_width final_height)

/-- The spec's Padding Planner contract, stated as a standalone function:
number of blank pages `pad_pages` appends for an original count `n`. -/
def plan_padding (n : ℕ) : ℕ :=
  if n % 8 = 0 then 0 else 8 * ((n + 7) / 8) - n

/-- The `Transformation().scale(0.5, 0.5)` of line 124. -/
def scale_transform : Transform := Transform.id.scale (1/2) (1/2)

/-- Body of the phase-1 loop (lines 126-163) for 1-based spread index `i`:
pick `front = pages[i-1]` and `back = pages[nump-i]`, put them left/right
according to the parity of `i`, each scaled by 0.5, the left one at (0,0)
and the right one at (spread_width/2, 0) on a fresh spread canvas. -/
def buildSpread (pages : List Page) (spread_width spread_height : ℚ) (i : ℕ) : Page :=
  let nump := pages.length
  let front_page_idx := i - 1
  let back_page_idx := nump - i
  let pFront := pages.getD front_page_idx default
  let pBack := pages.getD back_page_idx default
  let spread_canvas := create_blank_page spread_width spread_height
  let right_page_tx := spread_width / 2
  let pL := if i % 2 ≠ 0 then pBack else pFront
  let pR := if i % 2 ≠ 0 then pFront else pBack
  let transform_L := scale_transform.translate 0 0
  let spread_canvas := merge_transformed_page spread_canvas pL transform_L
  let transform_R := scale_transform.translate right_page_tx 0
  merge_transformed_page spread_canvas pR transform_R

/-- Phase 1 (lines 118-163): one spread per index `i = 1 .. nump/2`,
collected in that order. -/
def buildSpreads (pages : List Page) (spread_width spread_height : ℚ) : List Page :=
  (List.range (pages.length / 2)).map fun k => buildSpread pages spread_width spread_height (k + 1)

/-- Body of the phase-2 loop (lines 170-205) for 0-based sheet index `j`.
The state is the current list of spread pages (mutated in place by
`add_transformation` in the Python code) together with the sheets produced
so far.  The top spread `spread_pages[j]` is merged translated to
`(0, spread_height)`; the bottom spread `spread_pages[num_spreads-j-1]` is
first rotated 180 degrees in place, then translated by
`(spread_width, spread_height)` in place, then merged with no further
transformation. -/
def sheetStep (final_width final_height spread_width spread_height : ℚ) (num_spreads : ℕ)
    (st : List Page × List Page) (j : ℕ) : List Page × List Page :=
  let spread_pages := st.1
  let top_spread_idx := j
  let bottom_spread_idx := num_spreads - j - 1
  let sTop := spread_pages.getD top_spread_idx default
  let sBottom := spread_pages.getD bottom_spread_idx default
  let final_canvas := create_blank_page final_width final_height
  let translate_top := Transform.id.translate 0 spread_height
  let final_canvas := merge_transformed_page final_canvas sTop translate_top
  let rotate_transform := Transform.id.rotate180
  let sBottom := add_transformation sBottom rotate_transform
  let spread_pages := spread_pages.set bottom_spread_idx sBottom
  let translate_transform := Transform.id.translate spread_width spread_height
  let sBottom := add_transformation sBottom translate_transform
  let spread_pages := spread_pages.set bottom_spread_idx sBottom
  let final_canvas := merge_page final_canvas sBottom
  (spread_pages, st.2 ++ [final_canvas])

/-- Phase 2 (lines 165-205): fold the sheet loop over `j = 0 .. nf - 1`,
starting from the phase-1 spread list and an empty output. Returns the
final spread-list state and the produced sheets in order. -/
def buildSheets (spreads : List Page) (final_width final_height spread_width spread_height : ℚ)
    (num_spreads nf : ℕ) : List Page × List Page :=
  (List.range nf).foldl (sheetStep final_width final_height spread_width spread_height num_spreads)
    (spreads, [])

/-- Failure modes of the run that are visible to the imposition core. -/
inductive RunError where
  | invalidInput
deriving DecidableEq

/-- Model of `run_minibook` (lines 68-227), restricted to the computation on page
geometry: the input document is abstracted to the list of its page sizes
(the reader's page count and per-page cropbox), page `i`'s drawable content
being `Page.source i`.  A zero-page document aborts with `InvalidInput`
before anything is built; otherwise the page size `(W, H)` is read from
page 0's cropbox alone, the deck is padded to a multiple of 8, phase 1
builds `nump/2` spreads of size `(W, H/2)` and phase 2 builds `nump/4`
sheets of size `(W, H)`, which are the output pages in order. -/
def runMinibook (sizes : List (ℚ × ℚ)) : Except RunError (List Page) :=
  let nump_original := sizes.length
  if nump_original = 0 then .error .invalidInput
  else
    let first_page_box := sizes.headD (0, 0)
    let FINAL_WIDTH := first_page_box.1
    let FINAL_HEIGHT := first_page_box.2
    let SPREAD_WIDTH := FINAL_WIDTH
    let SPREAD_HEIGHT := FINAL_HEIGHT / 2
    let original_pages := (List.range nump_original).map Page.source
    let pages := pad_pages original_pages FINAL_WIDTH FINAL_HEIGHT
    let nump := pages.length
    let num_spreads := nump / 2
    let num_final_sheets := nump / 4
    let spread_pages := buildSpreads pages SPREAD_WIDTH SPREAD_HEIGHT
    let result := buildSheets spread_pages FINAL_WIDTH FINAL_HEIGHT SPREAD_WIDTH SPREAD_HEIGHT
      num_spreads num_final_sheets
    .ok result.2

/-- Model of `status` (lines 25-28): append the message to the log when `-v`
or `-vv` is set (the Python writes it to stderr). -/
def status (v vv : Bool) (log : List String) (message : String) : List String :=
  if v || vv then log ++ ["# " ++ message] else log

/-- Model of `debug` (lines 30-33): append the message to the log when `-vv`
is set. -/
def debugMsg (v vv : Bool) (log : List String) (message : String) : List String :=
  if vv then log ++ ["# " ++ message] else log

/-- Model of `pad_pages` together with its `status` and `debug` messages,
threading the log produced so far. -/
def pad_pagesLog (v vv : Bool) (pages : List Page) (final_width final_height : ℚ)
    (log : List String) : List Page × List String :=
  let nump := pages.length
  if nump % 8 = 0 then
    (pages, debugMsg v vv log ("Page count (" ++ toString nump ++ ") is already a multiple of 8."))
  else
    let target_nump := 8 * ((nump + 7) / 8)
    let padding_needed := target_nump - nump
    let log := status v vv log ("Original pages: " ++ toString nump ++ ". Padding with " ++
      toString padding_needed ++ " blank pages to reach " ++ toString target_nump ++ ".")
    (pages ++ List.replicate padding_needed (create_blank_page final_width final_height), log)

/-- Phase-1 loop body together with its `debug` message. -/
def spreadStepLog (v vv : Bool) (pages : List Page) (spread_width spread_height : ℚ)
    (st : List Page × List String) (k : ℕ) : List Page × List String :=
  let i := k + 1
  let front_page_idx := i - 1
  let back_page_idx := pages.length - i
  let msg :=
    if i % 2 ≠ 0 then
      "Spread " ++ toString i ++ " (Odd): Back(" ++ toString (back_page_idx + 1) ++
        ") on Left, Front(" ++ toString (front_page_idx + 1) ++ ") on Right."
    else
      "Spread " ++ toString i ++ " (Even): Front(" ++ toString (front_page_idx + 1) ++
        ") on Left, Back(" ++ toString (back_page_idx + 1) ++ ") on Right."
  (st.1 ++ [buildSpread pages spread_width spread_height i], debugMsg v vv st.2 msg)

/-- Phase 1 with logging. -/
def buildSpreadsLog (v vv : Bool) (pages : List Page) (spread_width spread_height : ℚ)
    (log : List String) : List Page × List String :=
  (List.range (pages.length / 2)).foldl (spreadStepLog v vv pages spread_width spread_height)
    ([], log)

/-- Phase-2 loop body together with its `debug` message. -/
def sheetStepLog (v vv : Bool) (final_width final_height spread_width spread_height : ℚ)
    (num_spreads : ℕ) (st : (List Page × List Page) × List String) (j : ℕ) :
    (List Page × List Page) × List String :=
  (sheetStep final_width final_height spread_width spread_height num_spreads st.1 j,
   debugMsg v vv st.2 ("Final Sheet " ++ toString (j + 1) ++ ": Top Spread (" ++
     toString (j + 1) ++ ") unrotated, Bottom Spread (" ++
     toString (num_spreads - j - 1 + 1) ++ ") rotated 180 degrees."))

/-- Phase 2 with logging. -/
def buildSheetsLog (v vv : Bool) (spreads : List Page)
    (final_width final_height spread_width spread_height : ℚ) (num_spreads nf : ℕ)
    (log : List String) : (List Page × List Page) × List String :=
  (List.range nf).foldl
    (sheetStepLog v vv final_width final_height spread_width spread_height num_spreads)
    ((spreads, []), log)

/-- Model of `run_minibook` with the verbosity flags `-v` and `-vv` and the
stderr log they control, mirroring how the computation interleaves with the
`status` and `debug` calls.  File input/output messages fall outside the
modelled computation. -/
def runMinibookLog (v vv : Bool) (sizes : List (ℚ × ℚ)) :
    Except RunError (List Page) × List String :=
  let log : List String := []
  let nump_original := sizes.length
  if nump_original = 0 then (.error .invalidInput, log)
  else
    let first_page_box := sizes.headD (0, 0)
    let FINAL_WIDTH := first_page_box.1
    let FINAL_HEIGHT := first_page_box.2
    let SPREAD_WIDTH := FINAL_WIDTH
    let SPREAD_HEIGHT := FINAL_HEIGHT / 2
    let log := debugMsg v vv log ("Detected Input Page Size: " ++ toString FINAL_WIDTH ++
      " x " ++ toString FINAL_HEIGHT ++ " points")
    let log := debugMsg v vv log ("Spread Page Size: " ++ toString SPREAD_WIDTH ++ " x " ++
      toString SPREAD_HEIGHT ++ " points")
    let original_pages := (List.range nump_original).map Page.source
    let padded := pad_pagesLog v vv original_pages FINAL_WIDTH FINAL_HEIGHT log
    let pages := padded.1
    let log := padded.2
    let nump := pages.length
    let num_spreads := nump / 2
    let num_final_sheets := nump / 4
    let log := status v vv log "Phase 1: Creating N/2 horizontal spreads."
    let phase1 := buildSpreadsLog v vv pages SPREAD_WIDTH SPREAD_HEIGHT log
    let spread_pages := phase1.1
    let log := phase1.2
    let log := status v vv log
      "Phase 2: Stitching spreads vertically with rotation (Final Sheet Size)."
    let phase2 := buildSheetsLog v vv spread_pages FINAL_WIDTH FINAL_HEIGHT SPREAD_WIDTH
      SPREAD_HEIGHT num_spreads num_final_sheets log
    let result := phase2.1
    let log := phase2.2
    let log := status v vv log "Process complete."
    (.ok result.2, log)

/-- The sheet that the phase-2 loop produces for index `j`, written out in
terms of the spread list as it stood when phase 2 started: the top spread
`spreads[j]` merged under a pure translation to `(0, spread_height)` and
the bottom spread `spreads[num_spreads-j-1]` destructively rotated by 180
degrees, destructively translated by `(spread_width, spread_height)`, and
then merged under the identity. -/
def expectedSheet (spreads : List Page) (final_width final_height spread_width spread_height : ℚ)
    (num_spreads j : ℕ) : Page :=
  Page.canvas final_width final_height
    [(spreads.getD j default, Transform.id.translate 0 spread_height),
     (add_transformation
        (add_transformation (spreads.getD (num_spreads - j - 1) default) Transform.id.rotate180)
        (Transform.id.translate spread_width spread_height),
      Transform.id)]

/-! ### Basic facts about the transforms the program builds -/

theorem Transform.id_translate (tx ty : ℚ) :
    Transform.id.translate tx ty = ⟨1, 0, 0, 1, tx, ty⟩ := by
  simp [Transform.id, Transform.translate, Transform.comp]

theorem Transform.id_rotate180 : Transform.id.rotate180 = ⟨-1, 0, 0, -1, 0, 0⟩ := by
  simp [Transform.id, Transform.rotate180, Transform.comp]

theorem scale_transform_eq : scale_transform = ⟨1/2, 0, 0, 1/2, 0, 0⟩ := by
  simp [scale_transform, Transform.id, Transform.scale, Transform.comp]

theorem scale_transform_translate (tx ty : ℚ) :
    scale_transform.translate tx ty = ⟨1/2, 0, 0, 1/2, tx, ty⟩ := by
  simp [scale_transform_eq, Transform.translate, Transform.comp]

/-! ### C3: padding -/

/-- C3: for a deck of at least one page, `pad_pages` appends exactly
`plan_padding` blank pages after the original pages (which keep their
order), `plan_padding n` is `0` when `n % 8 = 0` and
`8 * ceil(n / 8) - n` otherwise, the padded count is a multiple of 8, and
fewer than 8 pages are added. -/
theorem pad_pages_spec (pages : List Page) (fw fh : ℚ) (h : 1 ≤ pages.length) :
    pad_pages pages fw fh =
      pages ++ List.replicate (plan_padding pages.length) (create_blank_page fw fh)
    ∧ plan_padding pages.length =
        (if pages.length % 8 = 0 then 0 else 8 * ((pages.length + 7) / 8) - pages.length)
    ∧ (plan_padding pages.length + pages.length) % 8 = 0
    ∧ plan_padding pages.length < 8 := by
  unfold pad_pages plan_padding
  by_cases hc : pages.length % 8 = 0
  · simp only [hc, if_pos, if_true, List.replicate_zero, List.append_nil]
    exact ⟨trivial, trivial, by omega, by omega⟩
  · simp only [hc, if_neg, if_false]
    exact ⟨trivial, trivial, by omega, by omega⟩

/-- Witness for C3 at a concrete 5-page deck. -/
theorem pad_pages_spec_witness :
    pad_pages (List.replicate 5 (Page.source 0)) 2 3 =
      List.replicate 5 (Page.source 0) ++
        List.replicate (plan_padding (List.replicate 5 (Page.source 0)).length)
          (create_blank_page 2 3)
    ∧ plan_padding (List.replicate 5 (Page.source 0)).length =
        (if (List.replicate 5 (Page.source 0)).length % 8 = 0 then 0
         else 8 * (((List.replicate 5 (Page.source 0)).length + 7) / 8) -
           (List.replicate 5 (Page.source 0)).length)
    ∧ (plan_padding (List.replicate 5 (Page.source 0)).length +
        (List.replicate 5 (Page.source 0)).length) % 8 = 0
    ∧ plan_padding (List.replicate 5 (Page.source 0)).length < 8 :=
  pad_pages_spec (List.replicate 5 (Page.source 0)) 2 3 (by decide)

/-! ### C5: zero-page input -/

/-- C5: a zero-page document makes the run abort with `InvalidInput`, with
no output pages and no log produced: no padded deck, spreads, or sheets are
built. -/
theorem zero_pages_invalid (sizes : List (ℚ × ℚ)) (h : sizes.length = 0) :
    runMinibook sizes = .error .invalidInput
    ∧ ∀ v vv : Bool, runMinibookLog v vv sizes = (.error .invalidInput, []) := by
  refine ⟨?_, fun v vv => ?_⟩
  · simp [runMinibook, h]
  · simp [runMinibookLog, h]

/-- Witness for C5 at the empty document. -/
theorem zero_pages_invalid_witness :
    runMinibook [] = .error .invalidInput
    ∧ runMinibookLog true true [] = (.error .invalidInput, []) :=
  ⟨(zero_pages_invalid [] rfl).1, (zero_pages_invalid [] rfl).2 true true⟩

/-! ### C1: spread layout and parity rule -/

/-- Structure of one phase-1 spread: canvas of the spread size with the
left slot merged at `(0, 0)` and the right slot at `(spread_width / 2, 0)`,
both scaled by one half. -/
theorem buildSpread_eq (pages : List Page) (sw sh : ℚ) (i : ℕ) :
    buildSpread pages sw sh i =
      Page.canvas sw sh
        [((if i % 2 = 1 then pages.getD (pages.length - i) default
           else pages.getD (i - 1) default), ⟨1/2, 0, 0, 1/2, 0, 0⟩),
         ((if i % 2 = 1 then pages.getD (i - 1) default
           else pages.getD (pages.length - i) default), ⟨1/2, 0, 0, 1/2, sw / 2, 0⟩)] := by
  have hpar : (i % 2 ≠ 0) = (i % 2 = 1) := by
    simp only [eq_iff_iff]
    omega
  simp only [buildSpread, create_blank_page, merge_transformed_page, hpar,
    scale_transform_translate, List.nil_append, List.append_assoc, List.singleton_append]

/-- C1: for every spread index `i` in `[1, N/2]` over a deck of length `N`,
the spread at position `i - 1` is built from `front = deck[i-1]` and
`back = deck[N-i]`; when `i` is odd the left slot is `back` and the right
slot is `front`, when `i` is even the left slot is `front` and the right
slot is `back`; the left slot is merged scaled by one half in both axes at
the origin of a blank canvas of size `(W, H/2)` and the right slot scaled
by one half at `(W/2, 0)`. -/
theorem spread_layout (pages : List Page) (W H : ℚ) (i : ℕ)
    (h1 : 1 ≤ i) (h2 : i ≤ pages.length / 2) :
    (buildSpreads pages W (H / 2)).getD (i - 1) default =
      Page.canvas W (H / 2)
        [((if i % 2 = 1 then pages.getD (pages.length - i) default
           else pages.getD (i - 1) default), ⟨1/2, 0, 0, 1/2, 0, 0⟩),
         ((if i % 2 = 1 then pages.getD (i - 1) default
           else pages.getD (pages.length - i) default), ⟨1/2, 0, 0, 1/2, W / 2, 0⟩)] := by
  have hlt : i - 1 < (List.range (pages.length / 2)).length := by
    simp only [List.length_range]
    omega
  rw [buildSpreads, List.getD_eq_getElem _ _ (by simpa using hlt), List.getElem_map,
    List.getElem_range]
  rw [show i - 1 + 1 = i from by omega]
  exact buildSpread_eq pages W (H / 2) i

/-- Witness for C1: an 8-page deck with page size `(2, 4)`, spread index 1. -/
theorem spread_layout_witness :
    (buildSpreads ((List.range 8).map Page.source) 2 ((4 : ℚ) / 2)).getD (1 - 1) default =
      Page.canvas 2 ((4 : ℚ) / 2)
        [((if 1 % 2 = 1
           then ((List.range 8).map Page.source).getD
             (((List.range 8).map Page.source).length - 1) default
           else ((List.range 8).map Page.source).getD (1 - 1) default),
          ⟨1/2, 0, 0, 1/2, 0, 0⟩),
         ((if 1 % 2 = 1
           then ((List.range 8).map Page.source).getD (1 - 1) default
           else ((List.range 8).map Page.source).getD
             (((List.range 8).map Page.source).length - 1) default),
          ⟨1/2, 0, 0, 1/2, (2 : ℚ) / 2, 0⟩)] :=
  spread_layout ((List.range 8).map Page.source) 2 4 1 (by decide) (by decide)

/-! ### Pairing coverage machinery (C6, C7) -/

/-- Interleaving a front and a back selection is a permutation of the two
selections listed one after the other. -/
theorem flatMap_pair_perm {γ α : Type} (l : List γ) (f g : γ → α) :
    (l.flatMap fun k => [f k, g k]).Perm (l.map f ++ l.map g) := by
  induction l with
  | nil => simp
  | cons a l ih =>
    simp only [List.flatMap_cons, List.map_cons, List.cons_append]
    refine List.Perm.cons _ ?_
    exact (List.Perm.cons _ ih).trans List.perm_middle.symm

/-- Pointwise permutations of the pieces give a permutation of the
flattened lists. -/
theorem flatMap_perm_congr {γ α : Type} (l : List γ) (f g : γ → List α)
    (h : ∀ x ∈ l, (f x).Perm (g x)) : (l.flatMap f).Perm (l.flatMap g) := by
  induction l with
  | nil => simp
  | cons a l ih =>
    simp only [List.flatMap_cons]
    exact (h a (by simp)).append (ih fun x hx => h x (by simp [hx]))

/-- Reading `l` at positions `0 .. n-1` gives its first `n` elements. -/
theorem map_getD_range_take {α : Type} (l : List α) (d : α) :
    ∀ n, n ≤ l.length → (List.range n).map (fun k => l.getD k d) = l.take n := by
  intro n
  induction n with
  | zero => simp
  | succ n ih =>
    intro h
    have hn : n < l.length := by omega
    rw [List.range_succ, List.map_append, ih (by omega), List.take_succ,
      List.getElem?_eq_getElem hn]
    simp only [List.map_cons, List.map_nil, Option.toList_some,
      List.getD_eq_getElem _ _ hn]

/-- Reading `l` at positions `length-1 .. length-n` gives the reversal of
its last `n` elements. -/
theorem map_getD_range_rev {α : Type} (l : List α) (d : α) (n : ℕ) (h : n ≤ l.length) :
    (List.range n).map (fun k => l.getD (l.length - k - 1) d) =
      (l.drop (l.length - n)).reverse := by
  have h1 : (List.range n).map (fun k => l.reverse.getD k d) = l.reverse.take n :=
    map_getD_range_take l.reverse d n (by simpa using h)
  rw [List.take_reverse] at h1
  rw [← h1]
  apply List.map_congr_left
  intro k hk
  have hk' : k < n := by simpa using hk
  have e1 : l.length - k - 1 < l.length := by omega
  have e2 : k < l.reverse.length := by simp; omega
  rw [List.getD_eq_getElem _ _ e1, List.getD_eq_getElem _ _ e2, List.getElem_reverse]
  congr 1
  omega

/-- Pairing position `k` with position `length - k - 1` for
`k = 0 .. length/2 - 1` covers an even-length list exactly once. -/
theorem index_pairing_perm {α : Type} (l : List α) (d : α) (h : l.length % 2 = 0) :
    ((List.range (l.length / 2)).flatMap fun k =>
      [l.getD k d, l.getD (l.length - k - 1) d]).Perm l := by
  have h2 : l.length / 2 ≤ l.length := Nat.div_le_self _ _
  have step1 := flatMap_pair_perm (List.range (l.length / 2))
    (fun k => l.getD k d) (fun k => l.getD (l.length - k - 1) d)
  have step2 : (List.range (l.length / 2)).map (fun k => l.getD k d) ++
      (List.range (l.length / 2)).map (fun k => l.getD (l.length - k - 1) d) =
      l.take (l.length / 2) ++ (l.drop (l.length / 2)).reverse := by
    rw [map_getD_range_take l d _ h2, map_getD_range_rev l d _ h2,
      show l.length - l.length / 2 = l.length / 2 from by omega]
  have step3 := List.Perm.append_left (l.take (l.length / 2))
    (List.reverse_perm (l.drop (l.length / 2)))
  rw [List.take_append_drop] at step3
  exact step1.trans (step2 ▸ step3)

/-! ### C6: spread pairing coverage -/

/-- C6: over all spread indices, the pages merged into the phase-1 spreads
(`front_i = deck[i-1]` and `back_i = deck[N-i]`) are exactly the pages of
the padded deck, each used once: no page is placed into two spreads and
none is omitted. -/
theorem spread_pairing_coverage (deck : List Page) (sw sh : ℚ) (h : deck.length % 8 = 0) :
    ((buildSpreads deck sw sh).flatMap fun s => s.content.map Prod.fst).Perm deck := by
  have h2 : deck.length % 2 = 0 := by omega
  have key : ((List.range (deck.length / 2)).flatMap fun k =>
      [deck.getD k default, deck.getD (deck.length - k - 1) default]).Perm deck :=
    index_pairing_perm deck default h2
  refine List.Perm.trans ?_ key
  rw [buildSpreads, List.flatMap_map]
  apply flatMap_perm_congr
  intro k _
  rw [buildSpread_eq]
  have e1 : k + 1 - 1 = k := rfl
  have e2 : deck.length - (k + 1) = deck.length - k - 1 := by omega
  by_cases hp : (k + 1) % 2 = 1
  · simp only [hp, if_true, Page.content, List.map_cons, List.map_nil, e1, e2]
    exact List.Perm.swap _ _ _
  · simp only [hp, if_false, Page.content, List.map_cons, List.map_nil, e1, e2]
    exact List.Perm.refl _

/-- Witness for C6 at a concrete 8-page deck. -/
theorem spread_pairing_coverage_witness :
    ((buildSpreads ((List.range 8).map Page.source) 1 1).flatMap
      fun s => s.content.map Prod.fst).Perm ((List.range 8).map Page.source) :=
  spread_pairing_coverage ((List.range 8).map Page.source) 1 1 (by decide)

/-! ### Phase-2 fold invariant (C2, C4, C7) -/

theorem getD_set_ne {α : Type} (l : List α) (d x : α) (i j : ℕ) (h : i ≠ j) :
    (l.set i x).getD j d = l.getD j d := by
  simp [List.getD_eq_getElem?_getD, List.getElem?_set_ne h]

theorem getD_set_self {α : Type} (l : List α) (d x : α) (i : ℕ) (h : i < l.length) :
    (l.set i x).getD i d = x := by
  simp [List.getD_eq_getElem?_getD, List.getElem?_set_self h]

/-- Running the phase-2 loop `k` times keeps the spread-list length, leaves
every spread below index `length - k` untouched, has mutated exactly the
`k` bottom spreads consumed so far (post-composing the 180-degree rotation
and then the `(spread_width, spread_height)` translation, in place), and
has emitted the sheets for `j = 0 .. k-1` in order. -/
theorem sheetFold_invariant (spreads : List Page) (fw fh sw sh : ℚ) (k : ℕ)
    (hk : 2 * k ≤ spreads.length) :
    ((List.range k).foldl (sheetStep fw fh sw sh spreads.length) (spreads, [])).1.length
        = spreads.length
    ∧ (∀ m, m < spreads.length - k →
        ((List.range k).foldl (sheetStep fw fh sw sh spreads.length) (spreads, [])).1.getD m
            default
          = spreads.getD m default)
    ∧ (∀ j, j < k →
        ((List.range k).foldl (sheetStep fw fh sw sh spreads.length) (spreads, [])).1.getD
            (spreads.length - j - 1) default
          = add_transformation
              (add_transformation (spreads.getD (spreads.length - j - 1) default)
                Transform.id.rotate180)
              (Transform.id.translate sw sh))
    ∧ ((List.range k).foldl (sheetStep fw fh sw sh spreads.length) (spreads, [])).2
        = (List.range k).map (expectedSheet spreads fw fh sw sh spreads.length) := by
  induction k with
  | zero => simp
  | succ k ih =>
    obtain ⟨ih1, ih2, ih3, ih4⟩ := ih (by omega)
    rw [List.range_succ, List.foldl_append, List.foldl_cons, List.foldl_nil]
    set st := (List.range k).foldl (sheetStep fw fh sw sh spreads.length) (spreads, [])
      with hst
    have hread_top : st.1.getD k default = spreads.getD k default := ih2 k (by omega)
    have hread_bot : st.1.getD (spreads.length - k - 1) default
        = spreads.getD (spreads.length - k - 1) default := ih2 _ (by omega)
    simp only [sheetStep, merge_page, merge_transformed_page, create_blank_page,
      List.set_set, List.nil_append]
    rw [hread_top, hread_bot]
    refine ⟨by simp [ih1], ?_, ?_, ?_⟩
    · intro m hm
      rw [getD_set_ne _ _ _ _ _ (by omega)]
      exact ih2 m (by omega)
    · intro j hj
      rcases Nat.lt_succ_iff_lt_or_eq.mp hj with hj' | hj'
      · rw [getD_set_ne _ _ _ _ _ (by omega)]
        exact ih3 j hj'
      · subst hj'
        rw [getD_set_self _ _ _ _ (by rw [ih1]; omega)]
    · rw [List.map_append]
      simp only [List.map_cons, List.map_nil, expectedSheet, List.singleton_append,
        List.append_cancel_right_eq, List.append_left_inj]
      exact ih4

/-! ### C2: sheet transforms -/

/-- C2 (amended): for every final-sheet index `j`, the bottom spread
`spreads[S-1-j]` is transformed by first rotating 180 degrees about its own
origin and then translating by `(W, H/2)` — the code's
`(SPREAD_WIDTH, SPREAD_HEIGHT)` — after which it is merged onto the sheet
canvas under the identity, with no further translation; the top spread
`spreads[j]` is placed unrotated, translated to `(0, H/2)`. -/
theorem sheet_transform_rule (spreads : List Page) (W H : ℚ) (nf j : ℕ)
    (h1 : 2 * nf ≤ spreads.length) (h2 : j < nf) :
    (buildSheets spreads W H W (H / 2) spreads.length nf).2.getD j default =
      Page.canvas W H
        [(spreads.getD j default, ⟨1, 0, 0, 1, 0, H / 2⟩),
         (add_transformation
            (add_transformation (spreads.getD (spreads.length - j - 1) default)
              ⟨-1, 0, 0, -1, 0, 0⟩)
            ⟨1, 0, 0, 1, W, H / 2⟩,
          ⟨1, 0, 0, 1, 0, 0⟩)] := by
  have h4 := (sheetFold_invariant spreads W H W (H / 2) nf h1).2.2.2
  unfold buildSheets
  rw [h4]
  have hj : j < (List.map (expectedSheet spreads W H W (H / 2) spreads.length)
      (List.range nf)).length := by simpa using h2
  rw [List.getD_eq_getElem _ _ hj, List.getElem_map, List.getElem_range]
  simp [expectedSheet, Transform.translate, Transform.rotate180, Transform.comp, Transform.id]

/-- Witness for the amended C2 at a concrete list of four spreads. -/
theorem sheet_transform_rule_witness :
    (buildSheets [create_blank_page 1 1, create_blank_page 1 2, create_blank_page 1 3,
        create_blank_page 1 4] 2 4 2 ((4 : ℚ) / 2)
      [create_blank_page 1 1, create_blank_page 1 2, create_blank_page 1 3,
        create_blank_page 1 4].length 2).2.getD 0 default =
      Page.canvas 2 4
        [([create_blank_page 1 1, create_blank_page 1 2, create_blank_page 1 3,
            create_blank_page 1 4].getD 0 default, ⟨1, 0, 0, 1, 0, (4 : ℚ) / 2⟩),
         (add_transformation
            (add_transformation
              ([create_blank_page 1 1, create_blank_page 1 2, create_blank_page 1 3,
                create_blank_page 1 4].getD
                ([create_blank_page 1 1, create_blank_page 1 2, create_blank_page 1 3,
                  create_blank_page 1 4].length - 0 - 1) default)
              ⟨-1, 0, 0, -1, 0, 0⟩)
            ⟨1, 0, 0, 1, 2, (4 : ℚ) / 2⟩,
          ⟨1, 0, 0, 1, 0, 0⟩)] :=
  sheet_transform_rule [create_blank_page 1 1, create_blank_page 1 2, create_blank_page 1 3,
    create_blank_page 1 4] 2 4 2 0 (by decide) (by decide)

/-- C2 as stated is false: with 8 source pages of size `(2, 4)` (so
`W = 2`, `H = 4`, spread size `(2, 2)`), the bottom spread of sheet 0 as
merged by the program differs from the bottom spread rotated 180 degrees
and translated by `(W/2, H/2) = (1, 2)`; the program translates by
`(W, H/2) = (2, 2)`. -/
theorem sheet_transform_counterexample :
    (((buildSheets (buildSpreads ((List.range 8).map Page.source) 2 2) 2 4 2 2 4 2).2.getD 0
          default).content.getD 1 (default, Transform.id)).1.content.map Prod.snd ≠
      (add_transformation
          (add_transformation ((buildSpreads ((List.range 8).map Page.source) 2 2).getD 3
            default) Transform.id.rotate180)
          (Transform.id.translate 1 2)).content.map Prod.snd := by
  have hinv := (sheetFold_invariant (buildSpreads ((List.range 8).map Page.source) 2 2)
    2 4 2 2 2 (by decide)).2.2.2
  rw [show (buildSpreads ((List.range 8).map Page.source) 2 2).length = 4 from rfl] at hinv
  have h2 : (buildSheets (buildSpreads ((List.range 8).map Page.source) 2 2) 2 4 2 2 4 2).2
      = (List.range 2).map
          (expectedSheet (buildSpreads ((List.range 8).map Page.source) 2 2) 2 4 2 2 4) :=
    hinv
  rw [h2, show List.range 2 = [0, 1] from rfl]
  simp only [List.map_cons, List.map_nil, List.getD_cons_zero, expectedSheet]
  rw [show (buildSpreads ((List.range 8).map Page.source) 2 2).getD (4 - 0 - 1) default
      = buildSpread ((List.range 8).map Page.source) 2 2 4 from rfl,
    buildSpread_eq]
  norm_num [Page.content, add_transformation, Transform.comp, Transform.translate,
    Transform.rotate180, Transform.id]

/-! ### C7: sheet pairing coverage and output order -/

/-- C7: pairing `top_j = spreads[j]` with `bottom_j = spreads[S-1-j]` for
`j = 0 .. S/2 - 1` consumes every spread exactly once, and the finished
sheets are emitted exactly in the order `j = 0 .. S/2 - 1` (the sheet list
is the ordered map of `expectedSheet` over the sheet indices), with no
reordering afterward. -/
theorem sheet_pairing_order (spreads : List Page) (fw fh sw sh : ℚ)
    (h : spreads.length % 2 = 0) :
    ((List.range (spreads.length / 2)).flatMap fun j =>
        [spreads.getD j default, spreads.getD (spreads.length - j - 1) default]).Perm spreads
    ∧ (buildSheets spreads fw fh sw sh spreads.length (spreads.length / 2)).2
        = (List.range (spreads.length / 2)).map
            (expectedSheet spreads fw fh sw sh spreads.length) := by
  refine ⟨index_pairing_perm spreads default h, ?_⟩
  have h4 := (sheetFold_invariant spreads fw fh sw sh (spreads.length / 2) (by omega)).2.2.2
  unfold buildSheets
  exact h4

/-- Witness for C7 at a concrete list of four spreads. -/
theorem sheet_pairing_order_witness :
    ((List.range ([create_blank_page 1 1, create_blank_page 1 2, create_blank_page 1 3,
          create_blank_page 1 4].length / 2)).flatMap fun j =>
        [[create_blank_page 1 1, create_blank_page 1 2, create_blank_page 1 3,
            create_blank_page 1 4].getD j default,
         [create_blank_page 1 1, create_blank_page 1 2, create_blank_page 1 3,
            create_blank_page 1 4].getD
           ([create_blank_page 1 1, create_blank_page 1 2, create_blank_page 1 3,
              create_blank_page 1 4].length - j - 1) default]).Perm
      [create_blank_page 1 1, create_blank_page 1 2, create_blank_page 1 3,
        create_blank_page 1 4]
    ∧ (buildSheets [create_blank_page 1 1, create_blank_page 1 2, create_blank_page 1 3,
          create_blank_page 1 4] 2 4 2 2
        [create_blank_page 1 1, create_blank_page 1 2, create_blank_page 1 3,
          create_blank_page 1 4].length
        ([create_blank_page 1 1, create_blank_page 1 2, create_blank_page 1 3,
          create_blank_page 1 4].length / 2)).2
        = (List.range ([create_blank_page 1 1, create_blank_page 1 2, create_blank_page 1 3,
            create_blank_page 1 4].length / 2)).map
            (expectedSheet [create_blank_page 1 1, create_blank_page 1 2,
              create_blank_page 1 3, create_blank_page 1 4] 2 4 2 2
              [create_blank_page 1 1, create_blank_page 1 2, create_blank_page 1 3,
                create_blank_page 1 4].length) :=
  sheet_pairing_order [create_blank_page 1 1, create_blank_page 1 2, create_blank_page 1 3,
    create_blank_page 1 4] 2 4 2 2 (by decide)

/-! ### C4: non-destructiveness of placement -/

/-- C4 as stated is false: after the sheet builder has run on the spreads
of an 8-page document, the spread object at index 3 (the bottom spread
consumed by sheet 0) has changed — `add_transformation` mutated it in
place before it was merged. -/
theorem placement_mutation_counterexample :
    ((buildSheets (buildSpreads ((List.range 8).map Page.source) 2 2) 2 4 2 2 4 2).1.getD 3
        default).content.map Prod.snd ≠
      (((buildSpreads ((List.range 8).map Page.source) 2 2).getD 3 default).content.map
        Prod.snd) := by
  have hinv := (sheetFold_invariant (buildSpreads ((List.range 8).map Page.source) 2 2)
    2 4 2 2 2 (by decide)).2.2.1 0 (by decide)
  rw [show (buildSpreads ((List.range 8).map Page.source) 2 2).length = 4 from rfl] at hinv
  have h2 : (buildSheets (buildSpreads ((List.range 8).map Page.source) 2 2) 2 4 2 2 4 2).1.getD
        (4 - 0 - 1) default
      = add_transformation
          (add_transformation
            ((buildSpreads ((List.range 8).map Page.source) 2 2).getD (4 - 0 - 1) default)
            Transform.id.rotate180)
          (Transform.id.translate 2 2) := hinv
  rw [show (4 : ℕ) - 0 - 1 = 3 from rfl] at h2
  rw [h2,
    show (buildSpreads ((List.range 8).map Page.source) 2 2).getD 3 default
      = buildSpread ((List.range 8).map Page.source) 2 2 4 from rfl,
    buildSpread_eq]
  norm_num [Page.content, add_transformation, Transform.comp, Transform.translate,
    Transform.rotate180, Transform.id]

/-- C4 (amended): merging never mutates the merged-in page, and the deck
pages and all top spreads (indices below `length - nf`) are left untouched
by the whole run; but each bottom spread is destructively rewritten in
place — rotated 180 degrees and translated by
`(spread_width, spread_height)` — before being merged.  Each bottom spread
is consumed by exactly one sheet, so the mutation does not affect any other
output. -/
theorem placement_mutation_rule (spreads : List Page) (fw fh sw sh : ℚ) (nf : ℕ)
    (h1 : 2 * nf ≤ spreads.length) :
    (∀ m, m < spreads.length - nf →
        (buildSheets spreads fw fh sw sh spreads.length nf).1.getD m default
          = spreads.getD m default)
    ∧ ∀ j, j < nf →
        (buildSheets spreads fw fh sw sh spreads.length nf).1.getD
            (spreads.length - j - 1) default
          = add_transformation
              (add_transformation (spreads.getD (spreads.length - j - 1) default)
                Transform.id.rotate180)
              (Transform.id.translate sw sh) := by
  have h := sheetFold_invariant spreads fw fh sw sh nf h1
  unfold buildSheets
  exact ⟨h.2.1, h.2.2.1⟩

/-- Witness for the amended C4: sheet building leaves spread 0 unchanged
and rewrites spread 3 by the composed in-place transforms. -/
theorem placement_mutation_rule_witness :
    (buildSheets [create_blank_page 1 1, create_blank_page 1 2, create_blank_page 1 3,
        create_blank_page 1 4] 2 4 2 2
      [create_blank_page 1 1, create_blank_page 1 2, create_blank_page 1 3,
        create_blank_page 1 4].length 2).1.getD 0 default
      = [create_blank_page 1 1, create_blank_page 1 2, create_blank_page 1 3,
          create_blank_page 1 4].getD 0 default
    ∧ (buildSheets [create_blank_page 1 1, create_blank_page 1 2, create_blank_page 1 3,
          create_blank_page 1 4] 2 4 2 2
        [create_blank_page 1 1, create_blank_page 1 2, create_blank_page 1 3,
          create_blank_page 1 4].length 2).1.getD
          ([create_blank_page 1 1, create_blank_page 1 2, create_blank_page 1 3,
            create_blank_page 1 4].length - 0 - 1) default
      = add_transformation
          (add_transformation
            ([create_blank_page 1 1, create_blank_page 1 2, create_blank_page 1 3,
              create_blank_page 1 4].getD
              ([create_blank_page 1 1, create_blank_page 1 2, create_blank_page 1 3,
                create_blank_page 1 4].length - 0 - 1) default)
            Transform.id.rotate180)
          (Transform.id.translate 2 2) :=
  ⟨(placement_mutation_rule [create_blank_page 1 1, create_blank_page 1 2,
      create_blank_page 1 3, create_blank_page 1 4] 2 4 2 2 2 (by decide)).1 0 (by decide),
   (placement_mutation_rule [create_blank_page 1 1, create_blank_page 1 2,
      create_blank_page 1 3, create_blank_page 1 4] 2 4 2 2 2 (by decide)).2 0 (by decide)⟩

/-! ### C9: determinism and independence from the verbosity flags -/

theorem pad_pagesLog_fst (v vv : Bool) (pages : List Page) (fw fh : ℚ) (log : List String) :
    (pad_pagesLog v vv pages fw fh log).1 = pad_pages pages fw fh := by
  unfold pad_pagesLog pad_pages
  dsimp only
  split <;> rfl

/-- A fold whose first component evolves independently of the second
projects onto the fold of the first component. -/
theorem foldl_fst_eq {σ τ γ : Type} (F : σ × τ → γ → σ × τ) (f : σ → γ → σ)
    (hF : ∀ st x, (F st x).1 = f st.1 x) :
    ∀ (l : List γ) (s : σ) (t : τ), (l.foldl F (s, t)).1 = l.foldl f s := by
  intro l
  induction l with
  | nil => intro s t; rfl
  | cons a l ih =>
    intro s t
    rw [List.foldl_cons, List.foldl_cons]
    calc (List.foldl F (F (s, t) a) l).1
        = (List.foldl F ((F (s, t) a).1, (F (s, t) a).2) l).1 := rfl
      _ = List.foldl f (F (s, t) a).1 l := ih _ _
      _ = List.foldl f (f s a) l := by rw [hF]

/-- Appending one element per index is the map over the indices. -/
theorem foldl_append_map {γ α : Type} (f : γ → α) :
    ∀ (l : List γ) (acc : List α),
      l.foldl (fun a k => a ++ [f k]) acc = acc ++ l.map f := by
  intro l
  induction l with
  | nil => intro acc; simp
  | cons a l ih =>
    intro acc
    rw [List.foldl_cons, ih, List.map_cons]
    simp

theorem buildSpreadsLog_fst (v vv : Bool) (pages : List Page) (sw sh : ℚ)
    (log : List String) :
    (buildSpreadsLog v vv pages sw sh log).1 = buildSpreads pages sw sh := by
  unfold buildSpreadsLog
  rw [foldl_fst_eq (spreadStepLog v vv pages sw sh)
    (fun acc k => acc ++ [buildSpread pages sw sh (k + 1)]) (fun st x => rfl)
    (List.range (pages.length / 2)) [] log]
  rw [foldl_append_map]
  simp [buildSpreads]

theorem buildSheetsLog_fst (v vv : Bool) (spreads : List Page) (fw fh sw sh : ℚ)
    (ns nf : ℕ) (log : List String) :
    (buildSheetsLog v vv spreads fw fh sw sh ns nf log).1
      = buildSheets spreads fw fh sw sh ns nf := by
  unfold buildSheetsLog buildSheets
  exact foldl_fst_eq (sheetStepLog v vv fw fh sw sh ns) (sheetStep fw fh sw sh ns)
    (fun st x => rfl) (List.range nf) (spreads, []) log

/-- The verbosity flags only add log messages: the computed output of the
logged run is the pure run. -/
theorem runMinibookLog_fst (v vv : Bool) (sizes : List (ℚ × ℚ)) :
    (runMinibookLog v vv sizes).1 = runMinibook sizes := by
  unfold runMinibookLog runMinibook
  by_cases h : sizes.length = 0
  · simp [h]
  · simp only [h, if_false]
    rw [pad_pagesLog_fst, buildSpreadsLog_fst, buildSheetsLog_fst]

/-- C9: the imposition is deterministic.  The computed sheet sequence of a
logged run equals the pure function `runMinibook` of the input page list
and page sizes alone, so two runs on the same input — whatever the
verbosity flags — produce identical output sheet sequences. -/
theorem run_deterministic (v vv v' vv' : Bool) (sizes : List (ℚ × ℚ)) :
    (runMinibookLog v vv sizes).1 = runMinibook sizes
    ∧ (runMinibookLog v vv sizes).1 = (runMinibookLog v' vv' sizes).1 := by
  refine ⟨runMinibookLog_fst v vv sizes, ?_⟩
  rw [runMinibookLog_fst, runMinibookLog_fst]

/-! ### C8: counts and canvas sizes -/

/-- The padded page count is always a multiple of 8. -/
theorem pad_pages_length_mod (pages : List Page) (fw fh : ℚ) :
    (pad_pages pages fw fh).length % 8 = 0 := by
  by_cases hc : pages.length % 8 = 0
  · simp [pad_pages, hc]
  · simp only [pad_pages, hc, if_false, List.length_append, List.length_replicate]
    omega

/-- C8: for a padded deck of length `N` with detected page size `(W, H)`,
phase 1 produces exactly `N/2` spreads, each a canvas of size `(W, H/2)`,
and the run's output is exactly `N/4` sheets, each a canvas of size
`(W, H)`. -/
theorem pipeline_counts (sizes : List (ℚ × ℚ)) (W H : ℚ)
    (h1 : sizes ≠ []) (h2 : sizes.headD (0, 0) = (W, H)) :
    (buildSpreads (pad_pages ((List.range sizes.length).map Page.source) W H) W (H / 2)).length
      = (pad_pages ((List.range sizes.length).map Page.source) W H).length / 2
    ∧ (∀ s ∈ buildSpreads (pad_pages ((List.range sizes.length).map Page.source) W H) W (H / 2),
        ∃ c, s = Page.canvas W (H / 2) c)
    ∧ ∃ sheets, runMinibook sizes = .ok sheets
        ∧ sheets.length
            = (pad_pages ((List.range sizes.length).map Page.source) W H).length / 4
        ∧ ∀ s ∈ sheets, ∃ c, s = Page.canvas W H c := by
  refine ⟨by simp [buildSpreads], ?_, ?_⟩
  · intro s hs
    simp only [buildSpreads, List.mem_map] at hs
    obtain ⟨k, _, rfl⟩ := hs
    rw [buildSpread_eq]
    exact ⟨_, rfl⟩
  · have h0 : ¬sizes.length = 0 := by simpa [List.length_eq_zero] using h1
    unfold runMinibook
    simp only [h0, if_false, h2]
    set pages := pad_pages ((List.range sizes.length).map Page.source) W H with hpages
    have hsp : (buildSpreads pages W (H / 2)).length = pages.length / 2 := by
      simp [buildSpreads]
    have hmod := pad_pages_length_mod ((List.range sizes.length).map Page.source) W H
    rw [← hpages] at hmod
    have hns : pages.length / 2 = (buildSpreads pages W (H / 2)).length := hsp.symm
    refine ⟨_, rfl, ?_, ?_⟩
    · rw [hns]
      have h4 := (sheetFold_invariant (buildSpreads pages W (H / 2)) W H W (H / 2)
        (pages.length / 4) (by rw [hsp]; omega)).2.2.2
      unfold buildSheets
      rw [h4]
      simp
    · intro s hs
      rw [hns] at hs
      have h4 := (sheetFold_invariant (buildSpreads pages W (H / 2)) W H W (H / 2)
        (pages.length / 4) (by rw [hsp]; omega)).2.2.2
      unfold buildSheets at hs
      rw [h4] at hs
      simp only [List.mem_map] at hs
      obtain ⟨j, _, rfl⟩ := hs
      exact ⟨_, rfl⟩

/-- Witness for C8 at a single-page document of size `(2, 4)`. -/
theorem pipeline_counts_witness :
    (buildSpreads (pad_pages ((List.range [((2 : ℚ), (4 : ℚ))].length).map Page.source) 2 4) 2
        ((4 : ℚ) / 2)).length
      = (pad_pages ((List.range [((2 : ℚ), (4 : ℚ))].length).map Page.source) 2 4).length / 2 :=
  (pipeline_counts [((2 : ℚ), 4)] 2 4 (by simp) rfl).1

/-! ### C10: all geometry from the first page's cropbox -/

/-- C10: the output geometry is derived solely from page 0's cropbox: two
documents with the same page count and the same first-page size produce
identical outputs (the other pages' dimensions are never read), every blank
padding page is sized to the detected `(final_width, final_height)`, and
every page placed into a spread is scaled by exactly one half in both axes
whatever its own size. -/
theorem first_page_geometry (sizes1 sizes2 : List (ℚ × ℚ)) (pages : List Page) (sw sh : ℚ)
    (hlen : sizes1.length = sizes2.length)
    (hhead : sizes1.headD (0, 0) = sizes2.headD (0, 0)) :
    runMinibook sizes1 = runMinibook sizes2
    ∧ (∀ p ∈ pad_pages pages sw sh, p ∈ pages ∨ p = create_blank_page sw sh)
    ∧ ∀ s ∈ buildSpreads pages sw sh, ∀ pt ∈ s.content,
        pt.2.a = 1/2 ∧ pt.2.b = 0 ∧ pt.2.c = 0 ∧ pt.2.d = 1/2 := by
  refine ⟨?_, ?_, ?_⟩
  · unfold runMinibook
    rw [hlen, hhead]
  · intro p hp
    by_cases hc : pages.length % 8 = 0
    · simp only [pad_pages, hc, if_true] at hp
      exact Or.inl hp
    · simp only [pad_pages, hc, if_false] at hp
      rcases List.mem_append.mp hp with h | h
      · exact Or.inl h
      · exact Or.inr (List.eq_of_mem_replicate h)
  · intro s hs pt hpt
    simp only [buildSpreads, List.mem_map] at hs
    obtain ⟨k, _, rfl⟩ := hs
    rw [buildSpread_eq] at hpt
    simp only [Page.content, List.mem_cons, List.not_mem_nil, or_false] at hpt
    rcases hpt with h | h <;> subst h <;> norm_num

/-- Witness for C10: two 2-page documents agreeing on the first page's size
but not on the second page's produce identical output. -/
theorem first_page_geometry_witness :
    runMinibook [((2 : ℚ), (4 : ℚ)), (9, 9)] = runMinibook [((2 : ℚ), (4 : ℚ)), (1, 7)] :=
  (first_page_geometry [((2 : ℚ), 4), (9, 9)] [((2 : ℚ), 4), (1, 7)] [] 1 1 rfl rfl).1
